import Mathlib

/- Verification of the MegaCart backend.

Shallow embedding of the FastAPI service in `main.py` together with the
retry helper in `megacart_backend/database/mongodb.py`.

Modelling conventions:
  * Python strings are Lean `String`s; `str.lower()`/`str.strip()` are
    modelled for the ASCII range (`pyLower`, `pyStrip`).
  * `hashlib.sha256(...).hexdigest()` is a library call; it is modelled as
    an abstract function parameter `sha256_hex : String → String`, since the
    code only ever compares digests for equality.
  * JWTs (`jwt.encode`/`jwt.decode`) are modelled symbolically: a signed
    token records its payload and the secret it was signed with; decoding
    with the wrong secret, or a malformed token, fails, and an expired
    token fails, exactly as PyJWT raises `InvalidTokenError` /
    `ExpiredSignatureError`.
  * Time is a `Nat` count of seconds; `timedelta(days=30)` is `2592000`.
  * The module-level mutable globals (`FALLBACK_USERS`, `DB_CONNECTED`,
    `MONGODB_AVAILABLE`) form the `AppState`; handlers take the state and
    return it (possibly updated) next to their HTTP outcome.
  * The MongoDB branches of the handlers (guarded by
    `DB_CONNECTED and MONGODB_AVAILABLE`) talk to an external store; each
    handler takes the branch outcome as an explicit `Option`-typed
    parameter (`none` = branch fell through / raised, as in the code).
    All claims are about fallback mode (`db_connected = false`), where the
    guard makes that parameter dead.
  * HTTP failures (`HTTPException(status_code=c)`) are `Except.error c`.
-/

namespace MegaCart

/-- The single-quote character, as a string (several product names in
`SAMPLE_PRODUCTS` contain one). -/
def sq : String := String.singleton (Char.ofNat 39)

/-- Whitespace characters recognised by Python `str.strip()` (ASCII range). -/
def isPySpace (c : Char) : Bool :=
  c = ' ' || c = '\t' || c = '\n' || c = '\r' || c = Char.ofNat 11 || c = Char.ofNat 12

/-- Python `str.strip()` (ASCII whitespace). -/
def pyStrip (s : String) : String :=
  String.mk (((s.toList.dropWhile isPySpace).reverse.dropWhile isPySpace).reverse)

/-- Python `str.lower()` on one character (ASCII range). -/
def pyLowerChar (c : Char) : Char :=
  if 'A' ≤ c ∧ c ≤ 'Z' then Char.ofNat (c.toNat + 32) else c

/-- Python `str.lower()` (ASCII range). -/
def pyLower (s : String) : String :=
  String.mk (s.toList.map pyLowerChar)

/-- Digit tail of a Python integer literal: digits with single underscores
allowed between digits, accumulating the value. -/
def digitsVal : List Char → Nat → Option Nat
  | [], acc => some acc
  | '_' :: c :: rest, acc =>
      if c.isDigit then digitsVal rest (acc * 10 + (c.toNat - 48)) else none
  | c :: rest, acc =>
      if c.isDigit then digitsVal rest (acc * 10 + (c.toNat - 48)) else none

/-- Value of a nonempty unsigned digit string (first char must be a digit). -/
def pyIntDigits : List Char → Option Nat
  | [] => none
  | c :: rest => if c.isDigit then digitsVal rest (c.toNat - 48) else none

/-- Python `int(s)` on ASCII strings: optional surrounding whitespace,
optional sign, decimal digits (underscore separators allowed); `none`
models the `ValueError` raised on anything else. -/
def pyInt (s : String) : Option Int :=
  match (pyStrip s).toList with
  | '+' :: rest => (pyIntDigits rest).map (fun n => (n : Int))
  | '-' :: rest => (pyIntDigits rest).map (fun n => -(n : Int))
  | cs => (pyIntDigits cs).map (fun n => (n : Int))

/-- A user record as stored in `FALLBACK_USERS` by `register_user`
(`main.py` lines 1100-1111).  The Python dict stores the same string under
both `"id"` and `"_id"`; `mid` is the `"_id"` field. -/
structure User where
  id : String
  mid : String
  name : String
  email : String
  password : String
  created_at : Nat
  deriving Repr, DecidableEq

/-- The `UserResponse` pydantic model / the user dict returned by handlers. -/
structure UserResponse where
  id : String
  name : String
  email : String
  deriving Repr, DecidableEq

/-- A decoded JWT payload (`create_access_token` puts exactly these fields in). -/
structure JwtPayload where
  user_id : String
  email : String
  exp : Nat
  deriving Repr, DecidableEq

/-- A bearer token: either a JWT signed with some secret, or a malformed
string that PyJWT rejects with `InvalidTokenError`. -/
inductive Token where
  | signed (payload : JwtPayload) (secret : String)
  | malformed (raw : String)
  deriving Repr, DecidableEq

/-- The success body returned by `/auth/register` and `/auth/login`. -/
structure TokenResponse where
  message : String
  access_token : Token
  token_type : String
  user : UserResponse
  deriving Repr, DecidableEq

/-- The mutable module-level state of `main.py`. -/
structure AppState where
  db_connected : Bool
  mongodb_available : Bool
  fallback_users : List (String × User)
  deriving Repr, DecidableEq

/-- `JWT_SECRET` (`main.py` line 44). -/
def JWT_SECRET : String := "your-secret-key-here-change-in-production"

/-- `hash_password` (`main.py` lines 790-791): a single sha256-hexdigest call. -/
def hash_password (sha256_hex : String → String) (password : String) : String :=
  sha256_hex password

/-- `verify_password` (`main.py` lines 793-794). -/
def verify_password (sha256_hex : String → String)
    (plain_password hashed_password : String) : Bool :=
  hash_password sha256_hex plain_password == hashed_password

/-- `create_access_token` (`main.py` lines 796-803): payload
`(user_id, email, exp = now + 30 days)` signed with `JWT_SECRET`.
For fallback users `user_data.get("_id", ...)` is the `mid` field. -/
def create_access_token (u : User) (now : Nat) : Token :=
  Token.signed { user_id := u.mid, email := u.email, exp := now + 2592000 } JWT_SECRET

/-- `jwt.decode` with one accepted algorithm: rejects malformed tokens and
wrong signatures (`InvalidTokenError`) and expired payloads
(`ExpiredSignatureError`, `exp < now`). -/
def jwt_decode (t : Token) (secret : String) (now : Nat) : Option JwtPayload :=
  match t with
  | Token.malformed _ => none
  | Token.signed p s => if s ≠ secret then none else if p.exp < now then none else some p

/-- `verify_token` (`main.py` lines 805-812): returns the payload, or `none`
where the Python version catches the PyJWT exceptions and returns `None`. -/
def verify_token (t : Token) (now : Nat) : Option JwtPayload :=
  jwt_decode t JWT_SECRET now

/-- Lookup in the `FALLBACK_USERS` dict, modelled as an association list
keyed by email (`email in FALLBACK_USERS` / `FALLBACK_USERS[email]`). -/
def users_lookup (us : List (String × User)) (email : String) : Option User :=
  (us.find? (fun kv => kv.1 == email)).map (fun kv => kv.2)

/-- `CATEGORIES` (`main.py` line 74). -/
def CATEGORIES : List String :=
  ["Electronics", "Clothing", "Books", "Home", "Sports", "Beauty"]

/-- `get_categories` (`main.py` lines 1010-1013): returns the fixed list and
touches no state. -/
def get_categories (s : AppState) : List String × AppState :=
  (CATEGORIES, s)

/-- A catalog entry, with the fields of the `Product` pydantic model
(`main.py` lines 48-57).  Python floats carry exact decimal literals here
and are only ever stored and returned, so `price` and `rating` are `ℚ`. -/
structure Product where
  id : Int
  name : String
  description : String
  price : ℚ
  category : String
  image : String
  rating : ℚ
  reviews : Nat
  inStock : Bool
  deriving Repr, DecidableEq

/-- `SAMPLE_PRODUCTS` (`main.py` lines 76-781): the hardcoded fallback
catalog, in source order.  Ids 1-22. -/
def SAMPLE_PRODUCTS_A : List Product :=
  [ { id := 1, name := "iPhone 15 Pro MAX",
      description := "Latest iPhone with advanced features", price := 99999,
      category := "Electronics",
      image := "https://images.unsplash.com/photo-1697284959152-32ef13855932?w=800",
      rating := 4.8, reviews := 1250, inStock := true },
    { id := 2, name := "Samsung Galaxy S24",
      description := "Premium Android smartphone", price := 79999,
      category := "Electronics",
      image := "https://images.unsplash.com/photo-1610945415295-d9bbf067e59c?w=400",
      rating := 4.6, reviews := 890, inStock := true },
    { id := 3, name := "Nike Air Max",
      description := "Comfortable running shoes", price := 8999,
      category := "Clothing",
      image := "https://images.unsplash.com/photo-1542291026-7eec264c27ff?w=400",
      rating := 4.4, reviews := 567, inStock := true },
    { id := 4, name := "MacBook Pro M3",
      description := "Powerful laptop for professionals", price := 199999,
      category := "Electronics",
      image := "https://images.unsplash.com/photo-1496181133206-80ce9b88a853?w=400",
      rating := 4.9, reviews := 423, inStock := true },
    { id := 5, name := "Levi" ++ sq ++ "s Jeans",
      description := "Classic denim jeans", price := 3999,
      category := "Clothing",
      image := "https://images.unsplash.com/photo-1542272604-787c3835535d?w=400",
      rating := 4.2, reviews := 234, inStock := true },
    { id := 6, name := "Apple Watch Series 9",
      description := "Smartwatch with fitness tracking", price := 45999,
      category := "Electronics",
      image := "https://images.unsplash.com/photo-1644235779485-e4d021d8edab?w=400",
      rating := 4.6, reviews := 870, inStock := true },
    { id := 7, name := "Gaming Headset",
      description := "High-quality gaming headphones", price := 5999,
      category := "Electronics",
      image := "https://images.unsplash.com/photo-1583394838336-acd977736f90?w=400",
      rating := 4.5, reviews := 320, inStock := true },
    { id := 8, name := "Casual T-Shirt",
      description := "Comfortable cotton t-shirt", price := 999,
      category := "Clothing",
      image := "https://images.unsplash.com/photo-1521572163474-6864f9cf17ab?w=400",
      rating := 4.3, reviews := 150, inStock := true },
    { id := 9, name := "Apple AirPods Pro 2",
      description := "Wireless earbuds with noise cancellation", price := 24999,
      category := "Electronics",
      image := "https://images.unsplash.com/photo-1610438235354-a6ae5528385c?w=800&auto=format&fit=crop&q=60&ixlib=rb-4.1.0&ixid=M3wxMjA3fDB8MHxzZWFyY2h8N3x8QXBwbGUlMjBBaXJQb2RzJTIwUHJvJTIwMnxlbnwwfHwwfHx8MA%3D%3D",
      rating := 4.8, reviews := 1120, inStock := true },
    { id := 10, name := "Fitbit Charge 6",
      description := "Fitness band with heart rate monitoring", price := 15999,
      category := "Electronics",
      image := "https://images.unsplash.com/photo-1611270629569-948d94ca915a?w=800&auto=format&fit=crop&q=60&ixlib=rb-4.1.0&ixid=M3wxMjA3fDB8MHxzZWFyY2h8M3x8Rml0Yml0JTIwQ2hhcmdlJTIwNnxlbnwwfHwwfHx8MA%3D%3D",
      rating := 4.4, reviews := 450, inStock := true },
    { id := 11, name := "Woodland Hiking Boots",
      description := "Durable boots for trekking and hiking", price := 7999,
      category := "Clothing",
      image := "https://images.unsplash.com/photo-1542841366-9a30e19bb19a?w=800&auto=format&fit=crop&q=60&ixlib=rb-4.1.0&ixid=M3wxMjA3fDB8MHxzZWFyY2h8MTZ8fFdvb2RsYW5kJTIwSGlraW5nJTIwQm9vdHN8ZW58MHx8MHx8fDA%3D",
      rating := 4.3, reviews := 290, inStock := true },
    { id := 12, name := "Ray-Ban Aviator Sunglasses",
      description := "Classic unisex sunglasses", price := 12999,
      category := "Clothing",
      image := "https://images.unsplash.com/photo-1612479121907-15bca39a5388?w=800&auto=format&fit=crop&q=60&ixlib=rb-4.1.0&ixid=M3wxMjA3fDB8MHxzZWFyY2h8MTV8fFJheSUyMEJhbiUyMEF2aWF0b3IlMjBTdW5nbGFzc2VzfGVufDB8fDB8fHww",
      rating := 4.6, reviews := 710, inStock := true },
    { id := 13, name := "Gucci Leather Wallet",
      description := "Luxury leather wallet for men", price := 24999,
      category := "Clothing",
      image := "https://images.unsplash.com/photo-1584723344605-03537a1369d5?w=800&auto=format&fit=crop&q=60&ixlib=rb-4.1.0&ixid=M3wxMjA3fDB8MHxzZWFyY2h8NHx8R3VjY2klMjBMZWF0aGVyJTIwV2FsbGV0fGVufDB8fDB8fHww",
      rating := 4.5, reviews := 180, inStock := true },
    { id := 14, name := "Yonex Badminton Racket",
      description := "Lightweight racket for professional players", price := 6999,
      category := "Sports",
      image := "https://images.unsplash.com/photo-1615326882458-e0d45b097f55?w=800&auto=format&fit=crop&q=60&ixlib=rb-4.1.0&ixid=M3wxMjA3fDB8MHxzZWFyY2h8M3x8WW9uZXglMjBCYWRtaW50b24lMjBSYWNrZXR8ZW58MHx8MHx8fDA%3D",
      rating := 4.7, reviews := 520, inStock := true },
    { id := 15, name := "Decathlon Yoga Mat",
      description := "Non-slip yoga mat with cushioning", price := 2499,
      category := "Sports",
      image := "https://plus.unsplash.com/premium_photo-1716025656382-cc9dfe8714a7?w=800&auto=format&fit=crop&q=60&ixlib=rb-4.1.0&ixid=M3wxMjA3fDB8MHxzZWFyY2h8MXx8RGVjYXRobG9uJTIwWW9nYSUyME1hdHxlbnwwfHwwfHx8MA%3D%3D",
      rating := 4.4, reviews := 330, inStock := true },
    { id := 16, name := "Yoga Mat",
      description := "Non-slip yoga mat for exercise & meditation.", price := 899.0,
      category := "Sports",
      image := "https://images.unsplash.com/photo-1621886178958-be42369fc9e7?w=1400&auto=format&fit=crop&q=60&ixlib=rb-4.1.0&ixid=M3wxMjA3fDB8MHxzZWFyY2h8OXx8eW9nYSUyMG1hdHxlbnwwfHwwfHx8MA%3D%3D",
      rating := 4.5, reviews := 160, inStock := true },
    { id := 17, name := "Water Bottle",
      description := "Stainless steel reusable water bottle.", price := 499.0,
      category := "Home",
      image := "https://images.unsplash.com/photo-1625708458528-802ec79b1ed8?w=1400&auto=format&fit=crop&q=60&ixlib=rb-4.1.0&ixid=M3wxMjA3fDB8MHxzZWFyY2h8NXx8d2F0ZXIlMjBib3R0bGV8ZW58MHx8MHx8fDA%3D",
      rating := 4.6, reviews := 200, inStock := true },
    { id := 18, name := "Sci-Fi Novel",
      description := "Best-selling science fiction book.", price := 449.0,
      category := "Books",
      image := "https://images.unsplash.com/photo-1554357395-dbdc356ca5da?w=1400&auto=format&fit=crop&q=60&ixlib=rb-4.1.0&ixid=M3wxMjA3fDB8MHxzZWFyY2h8NHx8c2NpJTIwZmklMjBub3ZlbHxlbnwwfHwwfHx8MA%3D%3D",
      rating := 4.8, reviews := 310, inStock := true },
    { id := 19, name := "Ceiling Fan",
      description := "Energy-efficient ceiling fan with 3 blades.", price := 2499.0,
      category := "Home",
      image := "https://images.unsplash.com/photo-1555470100-1728256970aa?w=1400&auto=format&fit=crop&q=60&ixlib=rb-4.1.0&ixid=M3wxMjA3fDB8MHxzZWFyY2h8NHx8Y2VpbGluZyUyMGZhbnxlbnwwfHwwfHx8MA%3D%3D",
      rating := 4.3, reviews := 120, inStock := false },
    { id := 20, name := "Study Chair",
      description := "Comfortable ergonomic chair for study & office.", price := 3499.0,
      category := "Home",
      image := "https://images.unsplash.com/photo-1619633376278-d8652961ce02?w=1400&auto=format&fit=crop&q=60&ixlib=rb-4.1.0&ixid=M3wxMjA3fDB8MHxzZWFyY2h8MTN8fHN0dWR5JTIwY2hhaXJ8ZW58MHx8MHx8fDA%3D",
      rating := 4.4, reviews := 75, inStock := true },
    { id := 21, name := "Gaming Keyboard",
      description := "Mechanical RGB keyboard for pro gamers.", price := 3999.0,
      category := "Electronics",
      image := "https://images.unsplash.com/photo-1631449061775-c79df03a44f6?w=1400&auto=format&fit=crop&q=60&ixlib=rb-4.1.0&ixid=M3wxMjA3fDB8MHxzZWFyY2h8NXx8Z2FtaW5nJTIwa2V5Ym9hcmR8ZW58MHx8MHx8fDA%3D",
      rating := 4.7, reviews := 450, inStock := true },
    { id := 22, name := "Smartwatch",
      description := "Fitness tracking smartwatch with heart rate monitor.", price := 5999.0,
      category := "Electronics",
      image := "https://images.unsplash.com/photo-1660844817855-3ecc7ef21f12?w=1400&auto=format&fit=crop&q=60&ixlib=rb-4.1.0&ixid=M3wxMjA3fDB8MHxzZWFyY2h8NXx8c21hcnR3YXRjaHxlbnwwfHwwfHx8MA%3D%3D",
      rating := 4.4, reviews := 270, inStock := true } ]

/-- `SAMPLE_PRODUCTS`, ids 23-44. -/
def SAMPLE_PRODUCTS_B : List Product :=
  [ { id := 23, name := "Cookware Set",
      description := "Non-stick cookware set for daily cooking needs.", price := 2299.0,
      category := "Home",
      image := "https://images.unsplash.com/photo-1584990347449-fd98bc063110?w=1400&auto=format&fit=crop&q=60&ixlib=rb-4.1.0&ixid=M3wxMjA3fDB8MHxzZWFyY2h8M3x8Y29va3dhcmUlMjBzZXR8ZW58MHx8MHx8fDA%3D",
      rating := 4.3, reviews := 90, inStock := true },
    { id := 24, name := "Men" ++ sq ++ "s Jacket",
      description := "Winter wear jacket with warm lining.", price := 2599.0,
      category := "Clothing",
      image := "https://images.unsplash.com/photo-1654719796836-62b889d4598d?w=1400&auto=format&fit=crop&q=60&ixlib=rb-4.1.0&ixid=M3wxMjA3fDB8MHxzZWFyY2h8M3x8TWVuJ3MlMjBqYWNrZXR8ZW58MHx8MHx8fDA%3D",
      rating := 4.5, reviews := 110, inStock := true },
    { id := 25, name := "Women" ++ sq ++ "s Dress",
      description := "Elegant evening dress for special occasions.", price := 1899.0,
      category := "Clothing",
      image := "https://images.unsplash.com/photo-1753192104240-209f3fb568ef?w=1400&auto=format&fit=crop&q=60&ixlib=rb-4.1.0&ixid=M3wxMjA3fDB8MHxzZWFyY2h8N3x8d29tZW4ncyUyMGRyZXNzfGVufDB8fDB8fHww",
      rating := 4.6, reviews := 95, inStock := true },
    { id := 26, name := "Basketball",
      description := "Official size basketball with durable grip.", price := 799.0,
      category := "Sports",
      image := "https://images.unsplash.com/photo-1546519638-68e109498ffc?w=1400&auto=format&fit=crop&q=60&ixlib=rb-4.1.0&ixid=M3wxMjA3fDB8MHxzZWFyY2h8M3x8QmFza2V0YmFsbHxlbnwwfHwwfHx8MA%3D%3D",
      rating := 4.4, reviews := 220, inStock := true },
    { id := 27, name := "Tennis Racket",
      description := "Lightweight racket for beginners & pros.", price := 1299.0,
      category := "Sports",
      image := "https://plus.unsplash.com/premium_photo-1666913667023-4bfd0f6cff0a?w=1400&auto=format&fit=crop&q=60&ixlib=rb-4.1.0&ixid=M3wxMjA3fDB8MHxzZWFyY2h8MXx8dGVubmlzJTIwcmFja2V0fGVufDB8fDB8fHww",
      rating := 4.5, reviews := 140, inStock := true },
    { id := 28, name := "Cookbook",
      description := "Delicious recipes from around the world.", price := 599.0,
      category := "Books",
      image := "https://images.unsplash.com/photo-1495546968767-f0573cca821e?w=1400&auto=format&fit=crop&q=60&ixlib=rb-4.1.0&ixid=M3wxMjA3fDB8MHxzZWFyY2h8M3x8Y29va2Jvb2t8ZW58MHx8MHx8fDA%3D",
      rating := 4.3, reviews := 80, inStock := true },
    { id := 29, name := "Children" ++ sq ++ "s Story Book",
      description := "Illustrated bedtime stories for kids.", price := 299.0,
      category := "Books",
      image := "https://images.unsplash.com/photo-1644416598043-11c2816eec28?w=1400&auto=format&fit=crop&q=60&ixlib=rb-4.1.0&ixid=M3wxMjA3fDB8MHxzZWFyY2h8M3x8Y2hpbGRyZW4ncyUyMHN0b3J5JTIwYm9va3xlbnwwfHwwfHx8MA%3D%3D",
      rating := 4.8, reviews := 150, inStock := true },
    { id := 30, name := "Table Clock",
      description := "Stylish digital clock with alarm.", price := 799.0,
      category := "Home",
      image := "https://images.unsplash.com/photo-1558291038-9e065ab204d5?w=1400&auto=format&fit=crop&q=60&ixlib=rb-4.1.0&ixid=M3wxMjA3fDB8MHxzZWFyY2h8M3x8VGFibGUlMjBjbG9ja3xlbnwwfHwwfHx8MA%3D%3D",
      rating := 4.2, reviews := 60, inStock := true },
    { id := 31, name := "Laptop Stand",
      description := "Adjustable laptop stand for better posture.", price := 1299.0,
      category := "Electronics",
      image := "https://images.unsplash.com/photo-1623251606108-512c7c4a3507?w=1400&auto=format&fit=crop&q=60&ixlib=rb-4.1.0&ixid=M3wxMjA3fDB8MHxzZWFyY2h8M3x8TGFwdG9wJTIwc3RhbmR8ZW58MHx8MHx8fDA%3D",
      rating := 4.6, reviews := 180, inStock := true },
    { id := 32, name := "Men" ++ sq ++ "s Hoodie",
      description := "Casual hoodie with front pocket.", price := 1199.0,
      category := "Clothing",
      image := "https://images.unsplash.com/photo-1727528772898-10616410003d?w=1400&auto=format&fit=crop&q=60&ixlib=rb-4.1.0&ixid=M3wxMjA3fDB8MHxzZWFyY2h8NHx8bWVuJ3MlMjBob29kaWV8ZW58MHx8MHx8fDA%3D",
      rating := 4.5, reviews := 130, inStock := true },
    { id := 33, name := "Women" ++ sq ++ "s Scarf",
      description := "Soft woolen scarf for winter season.", price := 699.0,
      category := "Clothing",
      image := "https://plus.unsplash.com/premium_photo-1674343618059-926174e2c9b7?w=1400&auto=format&fit=crop&q=60&ixlib=rb-4.1.0&ixid=M3wxMjA3fDB8MHxzZWFyY2h8MTB8fHdvbWVuJ3MlMjBzY2FyZnxlbnwwfHwwfHx8MA%3D%3D",
      rating := 4.4, reviews := 75, inStock := true },
    { id := 34, name := "Vacuum Cleaner",
      description := "Compact vacuum cleaner for home use.", price := 3999.0,
      category := "Home",
      image := "https://images.unsplash.com/photo-1527515637462-cff94eecc1ac?q=80&w=1374&auto=format&fit=crop&ixlib=rb-4.1.0&ixid=M3wxMjA3fDB8MHxwaG90by1wYWdlfHx8fGVufDB8fHx8fA%3D%3D",
      rating := 4.3, reviews := 100, inStock := true },
    { id := 35, name := "E-Reader",
      description := "Portable e-book reader with long battery life.", price := 7999.0,
      category := "Electronics",
      image := "https://images.unsplash.com/photo-1676107779674-f77343861e81?w=1400&auto=format&fit=crop&q=60&ixlib=rb-4.1.0&ixid=M3wxMjA3fDB8MHxzZWFyY2h8NHx8ZSUyMHJlYWRlcnxlbnwwfHwwfHx8MA%3D%3D",
      rating := 4.7, reviews := 220, inStock := true },
    { id := 36, name := "Lipstick",
      description := "Matte finish long-lasting lipstick.", price := 499.0,
      category := "Beauty",
      image := "https://plus.unsplash.com/premium_photo-1677526496932-1b4bddeee554?w=1400&auto=format&fit=crop&q=60&ixlib=rb-4.1.0&ixid=M3wxMjA3fDB8MHxzZWFyY2h8MXx8bGlwc3RpY2t8ZW58MHx8MHx8fDA%3D",
      rating := 4.5, reviews := 210, inStock := true },
    { id := 37, name := "Foundation",
      description := "Liquid foundation with SPF 15.", price := 799.0,
      category := "Beauty",
      image := "https://images.unsplash.com/photo-1557205465-f3762edea6d3?w=1400&auto=format&fit=crop&q=60&ixlib=rb-4.1.0&ixid=M3wxMjA3fDB8MHxzZWFyY2h8M3x8Zm91bmRhdGlvbnxlbnwwfHwwfHx8MA%3D%3D",
      rating := 4.3, reviews := 180, inStock := true },
    { id := 38, name := "Face Cream",
      description := "Moisturizing face cream for daily use.", price := 699.0,
      category := "Beauty",
      image := "https://images.unsplash.com/photo-1629380108660-bd39c778a721?w=1400&auto=format&fit=crop&q=60&ixlib=rb-4.1.0&ixid=M3wxMjA3fDB8MHxzZWFyY2h8NHx8ZmFjZSUyMGNyZWFtfGVufDB8fDB8fHww",
      rating := 4.4, reviews := 240, inStock := true },
    { id := 39, name := "Perfume",
      description := "Floral fragrance perfume for women.", price := 1299.0,
      category := "Beauty",
      image := "https://images.unsplash.com/photo-1458538977777-0549b2370168?w=1400&auto=format&fit=crop&q=60&ixlib=rb-4.1.0&ixid=M3wxMjA3fDB8MHxzZWFyY2h8NHx8cGVyZnVtZXxlbnwwfHwwfHx8MA%3D%3D",
      rating := 4.6, reviews := 310, inStock := true },
    { id := 40, name := "Eyeliner",
      description := "Waterproof black eyeliner pen.", price := 299.0,
      category := "Beauty",
      image := "https://images.unsplash.com/photo-1631214524020-7e18db9a8f92?w=1400&auto=format&fit=crop&q=60&ixlib=rb-4.1.0&ixid=M3wxMjA3fDB8MHxzZWFyY2h8NHx8ZXllbGluZXJ8ZW58MHx8MHx8fDA%3D",
      rating := 4.2, reviews := 150, inStock := true },
    { id := 41, name := "Nail Polish",
      description := "Glossy finish red nail polish.", price := 199.0,
      category := "Beauty",
      image := "https://images.unsplash.com/photo-1723647395168-d916159b78c9?w=1400&auto=format&fit=crop&q=60&ixlib=rb-4.1.0&ixid=M3wxMjA3fDB8MHxzZWFyY2h8NHx8TmFpbCUyMHBvbGlzaHxlbnwwfHwwfHx8MA%3D%3D",
      rating := 4.1, reviews := 120, inStock := true },
    { id := 42, name := "Face Wash",
      description := "Herbal face wash for glowing skin.", price := 349.0,
      category := "Beauty",
      image := "https://images.unsplash.com/photo-1653919198052-546d44e2458e?w=1400&auto=format&fit=crop&q=60&ixlib=rb-4.1.0&ixid=M3wxMjA3fDB8MHxzZWFyY2h8M3x8ZmFjZSUyMHdhc2h8ZW58MHx8MHx8fDA%3D",
      rating := 4.4, reviews := 280, inStock := true },
    { id := 43, name := "Hair Serum",
      description := "Smooth and shiny hair serum.", price := 599.0,
      category := "Beauty",
      image := "https://images.unsplash.com/photo-1610595426075-eed5a3f521ee?w=1400&auto=format&fit=crop&q=60&ixlib=rb-4.1.0&ixid=M3wxMjA3fDB8MHxzZWFyY2h8NHx8aGFpciUyMHNlcnVtfGVufDB8fDB8fHww",
      rating := 4.3, reviews := 170, inStock := true },
    { id := 44, name := "Compact Powder",
      description := "Oil-control compact powder.", price := 399.0,
      category := "Beauty",
      image := "https://images.unsplash.com/photo-1737014892220-4123c7e020a1?w=1400&auto=format&fit=crop&q=60&ixlib=rb-4.1.0&ixid=M3wxMjA3fDB8MHxzZWFyY2h8M3x8Y29tcGFjdCUyMHBvd2RlcnxlbnwwfHwwfHx8MA%3D%3D",
      rating := 4.2, reviews := 140, inStock := true } ]

/-- `SAMPLE_PRODUCTS`, ids 45-64. -/
def SAMPLE_PRODUCTS_C : List Product :=
  [ { id := 45, name := "Makeup Brush Set",
      description := "Professional 12-piece makeup brush set.", price := 999.0,
      category := "Beauty",
      image := "https://images.unsplash.com/photo-1736753365978-0b5090f90095?w=1400&auto=format&fit=crop&q=60&ixlib=rb-4.1.0&ixid=M3wxMjA3fDB8MHxzZWFyY2h8M3x8bWFrZXVwJTIwYnJ1c2glMjBzZXR8ZW58MHx8MHx8fDA%3D",
      rating := 4.7, reviews := 390, inStock := true },
    { id := 46, name := "Apple iPhone 17 Pro",
      description := "Next-generation iPhone with A19 Bionic chip, advanced cameras, and ProMotion display.",
      price := 139999, category := "Mobiles",
      image := "https://images.unsplash.com/photo-1695048132545-3f879a3d1234?w=800",
      rating := 4.9, reviews := 1200, inStock := true },
    { id := 47, name := "Samsung Galaxy Z Fold 6",
      description := "Next-gen foldable smartphone with multitasking features.",
      price := 154999, category := "Mobiles",
      image := "https://images.unsplash.com/photo-1592899677977-9e04b2e5f73d?w=800",
      rating := 4.7, reviews := 890, inStock := true },
    { id := 48, name := "Puma Sports T-Shirt",
      description := "Breathable and lightweight t-shirt for workouts and casual wear.",
      price := 1299, category := "Clothing",
      image := "https://images.unsplash.com/photo-1512436991641-6745cdb1723f?w=800",
      rating := 4.3, reviews := 210, inStock := true },
    { id := 49, name := "Woodland Leather Boots",
      description := "Durable outdoor boots with rugged sole for trekking.",
      price := 4999, category := "Footwear",
      image := "https://images.unsplash.com/photo-1595950653106-6c9ebd614d3a?w=800",
      rating := 4.5, reviews := 340, inStock := true },
    { id := 50, name := "Nike Backpack Pro",
      description := "Stylish and spacious backpack for college and travel.",
      price := 3499, category := "Bags",
      image := "https://images.unsplash.com/photo-1622560480605-d83c853bc5c4?w=800",
      rating := 4.6, reviews := 270, inStock := true },
    { id := 51, name := "Philips Air Fryer XL",
      description := "Oil-free air fryer for healthy and tasty cooking.",
      price := 11999, category := "Home Appliances",
      image := "https://images.unsplash.com/photo-1617196038435-6cdd9d8a8d89?w=800",
      rating := 4.7, reviews := 510, inStock := true },
    { id := 52, name := "Yonex Badminton Racket",
      description := "Lightweight graphite racket for professional gameplay.",
      price := 3999, category := "Sports",
      image := "https://images.unsplash.com/photo-1587385789096-019d2908b00b?w=800",
      rating := 4.5, reviews := 190, inStock := true },
    { id := 53, name := "Allen Solly Formal Shirt",
      description := "Cotton slim-fit shirt perfect for office wear.",
      price := 2199, category := "Clothing",
      image := "https://images.unsplash.com/photo-1523381210434-271e8be1f52b?w=800",
      rating := 4.4, reviews := 300, inStock := true },
    { id := 54, name := "Prestige Mixer Grinder",
      description := "500W mixer grinder with 3 jars for multipurpose kitchen use.",
      price := 4999, category := "Kitchen",
      image := "https://images.unsplash.com/photo-1606787366850-de6330128bfc?w=800",
      rating := 4.6, reviews := 280, inStock := true },
    { id := 55, name := "Fossil Gen 7 Smartwatch",
      description := "Smartwatch with heart rate monitor and fitness tracking.",
      price := 18999, category := "Watches",
      image := "https://images.unsplash.com/photo-1523275335684-37898b6baf30?w=800",
      rating := 4.5, reviews := 420, inStock := true },
    { id := 56, name := "Wildcraft Travel Duffel",
      description := "Durable duffel bag with 3 compartments for travel.",
      price := 2599, category := "Bags",
      image := "https://images.unsplash.com/photo-1600180758895-6d09c0e7a94f?w=800",
      rating := 4.4, reviews := 180, inStock := true },
    { id := 57, name := "Adidas Football",
      description := "FIFA quality pro football with excellent grip and durability.",
      price := 2499, category := "Sports",
      image := "https://images.unsplash.com/photo-1551958219-acbc608c6377?w=800",
      rating := 4.7, reviews := 390, inStock := true },
    { id := 58, name := "Cannon DSLR Camera Bag",
      description := "Protective and stylish camera bag with waterproof coating.",
      price := 2999, category := "Accessories",
      image := "https://images.unsplash.com/photo-1526170375885-4d8ecf77b99f?w=800",
      rating := 4.6, reviews := 210, inStock := true },
    { id := 59, name := "Levi" ++ sq ++ "s Denim Jacket",
      description := "Classic denim jacket with modern slim fit.",
      price := 5499, category := "Clothing",
      image := "https://images.unsplash.com/photo-1520975918319-9de52b3f91b8?w=800",
      rating := 4.8, reviews := 370, inStock := true },
    { id := 60, name := "Butterfly Gas Stove 3 Burner",
      description := "Stainless steel gas stove with 3 high-efficiency burners.",
      price := 7499, category := "Kitchen",
      image := "https://images.unsplash.com/photo-1601050690685-f3e4f0b3f6d6?w=800",
      rating := 4.5, reviews := 260, inStock := true },
    { id := 61, name := "Skybags Laptop Bag",
      description := "Ergonomic laptop bag with water-resistant fabric.",
      price := 3299, category := "Bags",
      image := "https://images.unsplash.com/photo-1522199710521-72d69614c702?w=800",
      rating := 4.6, reviews := 310, inStock := true },
    { id := 62, name := "Decathlon Yoga Mat",
      description := "Eco-friendly yoga mat with non-slip surface.",
      price := 1599, category := "Sports",
      image := "https://images.unsplash.com/photo-1599058917212-d750089bc07a?w=800",
      rating := 4.7, reviews := 420, inStock := true },
    { id := 63, name := "Ray-Ban Wayfarer",
      description := "Classic sunglasses with UV protection.",
      price := 7999, category := "Accessories",
      image := "https://images.unsplash.com/photo-1602524812106-3f2e2a6b9d9d?w=800",
      rating := 4.6, reviews := 500, inStock := true },
    { id := 64, name := "Nike Running Shorts",
      description := "Comfortable and lightweight shorts for running and gym.",
      price := 1799, category := "Clothing",
      image := "https://images.unsplash.com/photo-1533000971552-6a962ff0b9f8?w=800",
      rating := 4.4, reviews := 230, inStock := true } ]

/-- `SAMPLE_PRODUCTS` (`main.py` lines 76-781), assembled in source order. -/
def SAMPLE_PRODUCTS : List Product :=
  SAMPLE_PRODUCTS_A ++ SAMPLE_PRODUCTS_B ++ SAMPLE_PRODUCTS_C

/-- `LoginRequest` (`main.py` lines 59-61). -/
structure LoginRequest where
  email : String
  password : String
  deriving Repr, DecidableEq

/-- `RegisterRequest` (`main.py` lines 63-66). -/
structure RegisterRequest where
  name : String
  email : String
  password : String
  deriving Repr, DecidableEq

/-- `get_products` (`main.py` lines 942-970).  `mongoProducts` is the
outcome of the MongoDB branch: `none` if the fetch raised, `some l`
otherwise; an empty `l` falls through to the sample data, as in the code. -/
def get_products (mongoProducts : Option (List Product)) (s : AppState) :
    List Product × AppState :=
  if s.db_connected && s.mongodb_available then
    match mongoProducts with
    | some l => if 0 < l.length then (l, s) else (SAMPLE_PRODUCTS, s)
    | none => (SAMPLE_PRODUCTS, s)
  else (SAMPLE_PRODUCTS, s)

/-- The fallback tail of `get_product` (`main.py` lines 997-1008):
`int(product_id)` with `ValueError` caught, then a first-match scan of
`SAMPLE_PRODUCTS`, else 404. -/
def get_product_fallback (product_id : String) : Except Nat Product :=
  match pyInt product_id with
  | some n =>
    match SAMPLE_PRODUCTS.find? (fun p => p.id == n) with
    | some p => Except.ok p
    | none => Except.error 404
  | none => Except.error 404

/-- `get_product` (`main.py` lines 972-1008).  `mongoProduct` is the MongoDB
branch outcome (`none` = raised or found nothing, falling through). -/
def get_product (mongoProduct : Option Product) (s : AppState)
    (product_id : String) : Except Nat Product × AppState :=
  if s.db_connected && s.mongodb_available then
    match mongoProduct with
    | some p => (Except.ok p, s)
    | none => (get_product_fallback product_id, s)
  else (get_product_fallback product_id, s)

/-- `register_user` (`main.py` lines 1016-1137).  Validation happens before
any storage access; the MongoDB branch outcome is `mongoReg` (`some r` =
returned or raised an `HTTPException` `r`, `none` = fell through). -/
def register_user (sha256_hex : String → String)
    (mongoReg : Option (Except Nat TokenResponse))
    (s : AppState) (req : RegisterRequest) (now : Nat) :
    Except Nat TokenResponse × AppState :=
  if req.name == "" || (pyStrip req.name).length < 2 then
    (Except.error 422, s)
  else if req.email == "" || !(req.email.toList.contains '@') then
    (Except.error 422, s)
  else if req.password == "" || req.password.length < 6 then
    (Except.error 422, s)
  else
    let em := pyStrip (pyLower req.email)
    let nm := pyStrip req.name
    let hashed := hash_password sha256_hex req.password
    let mongoStep : Option (Except Nat TokenResponse) :=
      if s.db_connected && s.mongodb_available then mongoReg else none
    match mongoStep with
    | some r => (r, s)
    | none =>
      match users_lookup s.fallback_users em with
      | some _ => (Except.error 400, s)
      | none =>
        let uid := "user_" ++ toString (s.fallback_users.length + 1)
        let u : User :=
          { id := uid, mid := uid, name := nm, email := em,
            password := hashed, created_at := now }
        (Except.ok
          { message := "User registered successfully (fallback mode)",
            access_token := create_access_token u now,
            token_type := "bearer",
            user := { id := uid, name := nm, email := em } },
         { s with fallback_users := s.fallback_users ++ [(em, u)] })

/-- `login_user` (`main.py` lines 1139-1218).  `mongoLogin` is the user the
MongoDB branch found (`none` = raised or found nothing); a found user whose
password does not verify falls through to the fallback check, as in the
code. -/
def login_user (sha256_hex : String → String) (mongoLogin : Option User)
    (s : AppState) (req : LoginRequest) (now : Nat) :
    Except Nat TokenResponse × AppState :=
  let em := pyStrip (pyLower req.email)
  if em == "" || req.password == "" then (Except.error 422, s)
  else
    let mongoStep : Option TokenResponse :=
      if s.db_connected && s.mongodb_available then
        match mongoLogin with
        | some u =>
          if verify_password sha256_hex req.password u.password then
            some { message := "Login successful",
                   access_token := create_access_token u now,
                   token_type := "bearer",
                   user := { id := u.mid, name := u.name, email := u.email } }
          else none
        | none => none
      else none
    match mongoStep with
    | some r => (Except.ok r, s)
    | none =>
      match users_lookup s.fallback_users em with
      | some u =>
        if verify_password sha256_hex req.password u.password then
          (Except.ok
            { message := "Login successful (fallback mode)",
              access_token := create_access_token u now,
              token_type := "bearer",
              user := { id := u.id, name := u.name, email := u.email } }, s)
        else (Except.error 401, s)
      | none => (Except.error 401, s)

/-- `get_current_user` (`main.py` lines 814-874), the dependency behind
`GET /auth/me`.  `credentials = none` models a request without bearer
credentials; `mongoUser` is the MongoDB branch outcome (a found user is
returned, otherwise the code falls through to the fallback store). -/
def get_current_user (mongoUser : Option UserResponse) (s : AppState)
    (credentials : Option Token) (now : Nat) : Except Nat UserResponse :=
  match credentials with
  | none => Except.error 401
  | some tok =>
    match verify_token tok now with
    | none => Except.error 401
    | some payload =>
      let mongoStep : Option UserResponse :=
        if s.db_connected && s.mongodb_available then mongoUser else none
      match mongoStep with
      | some r => Except.ok r
      | none =>
        match users_lookup s.fallback_users payload.email with
        | some u => Except.ok { id := u.id, name := u.name, email := u.email }
        | none => Except.error 401

/-- Observable trace of one `execute_with_retry` run: the returned or
re-raised outcome (`none` only when the loop body never runs, i.e.
`max_retries = 0`, where Python returns `None`), the chronological list of
`asyncio.sleep` durations, and the number of invocations of `operation`. -/
structure RetryTrace (ε α : Type) where
  result : Option (Except ε α)
  sleeps : List ℚ
  calls : Nat
  deriving Repr

/-- Loop body of `execute_with_retry` (`mongodb.py` lines 199-210).  The
async `operation` is modelled as a function from the attempt index to that
invocation outcome; `r` counts the remaining iterations of
`range(max_retries)` and `d` is the current `delay`. -/
def retryGo {ε α : Type} (operation : Nat → Except ε α) :
    Nat → Nat → ℚ → RetryTrace ε α
  | _, 0, _ => { result := none, sleeps := [], calls := 0 }
  | attempt, r + 1, d =>
    match operation attempt with
    | Except.ok a => { result := some (Except.ok a), sleeps := [], calls := 1 }
    | Except.error e =>
      if r = 0 then { result := some (Except.error e), sleeps := [], calls := 1 }
      else
        let t := retryGo operation (attempt + 1) r (2 * d)
        { result := t.result, sleeps := d :: t.sleeps, calls := t.calls + 1 }

/-- `execute_with_retry` (`mongodb.py` lines 198-210). -/
def execute_with_retry {ε α : Type} (operation : Nat → Except ε α)
    (max_retries : Nat) (delay : ℚ) : RetryTrace ε α :=
  retryGo operation 0 max_retries delay

/-! ## Helper lemmas -/

theorem range_map_double (k : Nat) (d : ℚ) :
    (List.range (k + 1)).map (fun i => 2 ^ i * d) =
      d :: (List.range k).map (fun i => 2 ^ i * (2 * d)) := by
  rw [List.range_succ_eq_map, List.map_cons, List.map_map]
  refine congrArg₂ _ (by norm_num) ?_
  refine congrArg (fun f => List.map f (List.range k)) ?_
  funext i
  simp only [Function.comp_apply, pow_succ]
  ring

theorem retryGo_calls_le {ε α : Type} (operation : Nat → Except ε α) :
    ∀ (r attempt : Nat) (d : ℚ), (retryGo operation attempt r d).calls ≤ r := by
  intro r
  induction r with
  | zero => intro attempt d; simp [retryGo]
  | succ r ih =>
    intro attempt d
    simp only [retryGo]
    cases operation attempt with
    | ok a => simp
    | error e =>
      by_cases hr : r = 0
      · simp [hr]
      · simp only [if_neg hr]
        have h1 := ih (attempt + 1) (2 * d)
        show (retryGo operation (attempt + 1) r (2 * d)).calls + 1 ≤ r + 1
        omega

theorem retryGo_first_ok {ε α : Type} (operation : Nat → Except ε α) :
    ∀ (r k attempt : Nat) (d : ℚ) (a : α), k < r →
      operation (attempt + k) = Except.ok a →
      (∀ i, i < k → ∃ e, operation (attempt + i) = Except.error e) →
      retryGo operation attempt r d =
        { result := some (Except.ok a),
          sleeps := (List.range k).map (fun i => 2 ^ i * d),
          calls := k + 1 } := by
  intro r
  induction r with
  | zero => intro k attempt d a hk; exact absurd hk (Nat.not_lt_zero k)
  | succ r ih =>
    intro k attempt d a hk hok herr
    match k with
    | 0 =>
      rw [Nat.add_zero] at hok
      simp [retryGo, hok]
    | k' + 1 =>
      obtain ⟨e0, he0⟩ := herr 0 (Nat.succ_pos k')
      rw [Nat.add_zero] at he0
      have hr : r ≠ 0 := by omega
      have hshift : attempt + 1 + k' = attempt + (k' + 1) := by omega
      have ht := ih k' (attempt + 1) (2 * d) a (by omega)
        (by rw [hshift]; exact hok)
        (fun i hi => by
          obtain ⟨e, he⟩ := herr (i + 1) (by omega)
          exact ⟨e, by have h2 : attempt + 1 + i = attempt + (i + 1) := by omega
                       rw [h2]; exact he⟩)
      simp only [retryGo, he0, if_neg hr, ht, range_map_double]

theorem retryGo_all_fail {ε α : Type} (operation : Nat → Except ε α) :
    ∀ (r attempt : Nat) (d : ℚ) (e : ε), 1 ≤ r →
      (∀ i, i < r → ∃ e0, operation (attempt + i) = Except.error e0) →
      operation (attempt + (r - 1)) = Except.error e →
      retryGo operation attempt r d =
        { result := some (Except.error e),
          sleeps := (List.range (r - 1)).map (fun i => 2 ^ i * d),
          calls := r } := by
  intro r
  induction r with
  | zero => intro _ _ _ h; exact absurd h (by omega)
  | succ r ih =>
    intro attempt d e _ herr hlast
    by_cases hr : r = 0
    · subst hr
      rw [Nat.add_zero] at hlast
      simp [retryGo, hlast]
    · obtain ⟨e0, he0⟩ := herr 0 (by omega)
      rw [Nat.add_zero] at he0
      have hshift : attempt + 1 + (r - 1) = attempt + (r + 1 - 1) := by omega
      have ht := ih (attempt + 1) (2 * d) e (by omega)
        (fun i hi => by
          obtain ⟨e1, he1⟩ := herr (i + 1) (by omega)
          exact ⟨e1, by have h2 : attempt + 1 + i = attempt + (i + 1) := by omega
                        rw [h2]; exact he1⟩)
        (by rw [hshift]; exact hlast)
      have hk : r - 1 + 1 = r := by omega
      have hrange := range_map_double (r - 1) d
      rw [hk] at hrange
      simp only [retryGo, he0, if_neg hr, ht, Nat.succ_sub_one, hrange]

/-! ## C1 -/

/-- C1: `execute_with_retry`, for any `max_retries ≥ 1` and initial delay
`d`, invokes the operation at most `max_retries` times; it returns the
value of the first invocation that does not raise, having slept
`d, 2d, 4d, ...` between consecutive invocations; and when all
`max_retries` invocations raise it re-raises the exception of the last
one, having slept `d, 2d, ...` between the `max_retries` invocations. -/
theorem C1_execute_with_retry_correct {ε α : Type} (operation : Nat → Except ε α)
    (max_retries : Nat) (d : ℚ) (hm : 1 ≤ max_retries) :
    (execute_with_retry operation max_retries d).calls ≤ max_retries ∧
    (∀ k a, k < max_retries → operation k = Except.ok a →
      (∀ i, i < k → ∃ e, operation i = Except.error e) →
      execute_with_retry operation max_retries d =
        { result := some (Except.ok a),
          sleeps := (List.range k).map (fun i => 2 ^ i * d),
          calls := k + 1 }) ∧
    (∀ e, (∀ i, i < max_retries → ∃ e0, operation i = Except.error e0) →
      operation (max_retries - 1) = Except.error e →
      execute_with_retry operation max_retries d =
        { result := some (Except.error e),
          sleeps := (List.range (max_retries - 1)).map (fun i => 2 ^ i * d),
          calls := max_retries }) := by
  refine ⟨retryGo_calls_le operation max_retries 0 d, ?_, ?_⟩
  · intro k a hk hok herr
    exact retryGo_first_ok operation max_retries k 0 d a hk
      (by simpa using hok) (fun i hi => by simpa using herr i hi)
  · intro e herr hlast
    exact retryGo_all_fail operation max_retries 0 d e hm
      (fun i hi => by simpa using herr i hi) (by simpa using hlast)

/-- C1 witness: an operation that raises once then succeeds, with
`max_retries = 2` and delay `1`: one sleep of duration 1, two calls,
result 42. -/
theorem C1_execute_with_retry_correct_witness :
    execute_with_retry (fun i => if i = 0 then Except.error "boom" else Except.ok 42) 2 1 =
      { result := some (Except.ok 42), sleeps := [1], calls := 2 } := by
  have h := (C1_execute_with_retry_correct
      (fun i => if i = 0 then Except.error "boom" else Except.ok 42) 2 1 (by norm_num)).2.1
      1 42 (by norm_num) rfl
      (fun i hi => ⟨"boom", by have : i = 0 := by omega
                               subst this; rfl⟩)
  rw [h]
  norm_num [List.range_succ]

/-! ## Witness fixtures -/

/-- Fixture digest function for witnesses: an arbitrary deterministic
stand-in for the sha256 hexdigest. -/
def shaFix : String → String := fun s => s ++ "#"

/-- Fixture user for witnesses, shaped as `register_user` stores users. -/
def aliceFix : User :=
  { id := "user_1", mid := "user_1", name := "Alice", email := "a@b.com",
    password := "secret1#", created_at := 0 }

/-- Fixture fallback-mode state containing `aliceFix`. -/
def stateFix : AppState :=
  { db_connected := false, mongodb_available := false,
    fallback_users := [("a@b.com", aliceFix)] }

/-- Fixture empty fallback-mode state. -/
def stateEmptyFix : AppState :=
  { db_connected := false, mongodb_available := false, fallback_users := [] }

/-! ## C8 -/

/-- C8: `GET /api/categories/` returns the fixed six-element category list
in every application state (connected or not) and modifies no state. -/
theorem C8_get_categories_fixed (s : AppState) :
    get_categories s =
      (["Electronics", "Clothing", "Books", "Home", "Sports", "Beauty"], s) := rfl

/-! ## C5 -/

/-- C5: in fallback mode (document store not connected), `GET /api/products/`
returns exactly the hardcoded `SAMPLE_PRODUCTS` list, in its given order,
and leaves the application state unchanged. -/
theorem C5_get_products_fallback (mongoProducts : Option (List Product))
    (s : AppState) (hdb : s.db_connected = false) :
    get_products mongoProducts s = (SAMPLE_PRODUCTS, s) := by
  simp [get_products, hdb]

/-- C5 witness: the empty fallback state. -/
theorem C5_get_products_fallback_witness :
    get_products none stateEmptyFix = (SAMPLE_PRODUCTS, stateEmptyFix) :=
  C5_get_products_fallback none stateEmptyFix rfl

/-! ## C9 -/

/-- C9: `verify_password p (hash_password p)` always holds;
`verify_password p h` holds exactly when `hash_password p = h`; and hashing
is deterministic, so equal passwords give equal stored digests. -/
theorem C9_verify_hash_roundtrip (sha256_hex : String → String)
    (p h q : String) (hpq : p = q) :
    verify_password sha256_hex p (hash_password sha256_hex p) = true ∧
    (verify_password sha256_hex p h = true ↔ hash_password sha256_hex p = h) ∧
    hash_password sha256_hex p = hash_password sha256_hex q := by
  refine ⟨?_, ?_, by rw [hpq]⟩
  · simp [verify_password]
  · simp [verify_password]

/-- C9 witness at a concrete digest function and password. -/
theorem C9_verify_hash_roundtrip_witness :
    verify_password shaFix "secret1" (hash_password shaFix "secret1") = true ∧
    (verify_password shaFix "secret1" "secret1#" = true ↔
      hash_password shaFix "secret1" = "secret1#") ∧
    hash_password shaFix "secret1" = hash_password shaFix "secret1" :=
  C9_verify_hash_roundtrip shaFix "secret1" "secret1#" "secret1" rfl

/-! ## C10 -/

/-- C10: in fallback mode, a path parameter that is not a decimal integer
never escapes as an unhandled conversion error: `GET /api/products/{id}`
terminates with HTTP 404 and the application state is unchanged. -/
theorem C10_get_product_bad_id_404 (mongoProduct : Option Product)
    (s : AppState) (hdb : s.db_connected = false)
    (product_id : String) (hbad : pyInt product_id = none) :
    get_product mongoProduct s product_id = (Except.error 404, s) := by
  simp [get_product, hdb, get_product_fallback, hbad]

/-- C10 witness: the path parameter `"abc"`. -/
theorem C10_get_product_bad_id_404_witness :
    get_product none stateEmptyFix "abc" = (Except.error 404, stateEmptyFix) :=
  C10_get_product_bad_id_404 none stateEmptyFix rfl "abc" rfl

/-! ## C6 -/

theorem find?_some_first {α : Type} (p : α → Bool) :
    ∀ (l : List α) (a : α), l.find? p = some a →
      ∃ i, ∃ h : i < l.length, l.get ⟨i, h⟩ = a ∧ p a = true ∧
        ∀ j, ∀ hj : j < l.length, j < i → p (l.get ⟨j, hj⟩) = false := by
  intro l
  induction l with
  | nil => intro a h; simp [List.find?] at h
  | cons x xs ih =>
    intro a h
    by_cases hx : p x = true
    · rw [List.find?_cons_of_pos _ hx] at h
      obtain rfl : x = a := by injection h
      refine ⟨0, by simp, rfl, hx, ?_⟩
      intro j hj hj0
      exact absurd hj0 (Nat.not_lt_zero j)
    · have hx' : p x = false := by
        cases hpx : p x
        · rfl
        · exact absurd hpx hx
      rw [List.find?_cons_of_neg _ hx] at h
      obtain ⟨i, hi, hga, hpa, hfirst⟩ := ih a h
      refine ⟨i + 1, Nat.succ_lt_succ hi, hga, hpa, ?_⟩
      intro j hj hji
      match j, hj with
      | 0, _ => exact hx'
      | j' + 1, hj =>
        exact hfirst j' (Nat.lt_of_succ_lt_succ hj) (Nat.lt_of_succ_lt_succ hji)

/-- C6: in fallback mode, `GET /api/products/{id}` on a path parameter with
integer value `n` returns the first entry of `SAMPLE_PRODUCTS` whose `id`
equals `n` when one exists, and fails with HTTP 404 when no entry matches
(`404` also answers any unparsable parameter, by `C10`). -/
theorem C6_get_product_by_id (mongoProduct : Option Product) (s : AppState)
    (hdb : s.db_connected = false) (product_id : String) (n : Int)
    (hn : pyInt product_id = some n) :
    ((∃ p ∈ SAMPLE_PRODUCTS, p.id = n) →
      ∃ i, ∃ h : i < SAMPLE_PRODUCTS.length,
        (SAMPLE_PRODUCTS.get ⟨i, h⟩).id = n ∧
        get_product mongoProduct s product_id =
          (Except.ok (SAMPLE_PRODUCTS.get ⟨i, h⟩), s) ∧
        ∀ j, ∀ hj : j < SAMPLE_PRODUCTS.length, j < i →
          (SAMPLE_PRODUCTS.get ⟨j, hj⟩).id ≠ n) ∧
    ((∀ p ∈ SAMPLE_PRODUCTS, p.id ≠ n) →
      get_product mongoProduct s product_id = (Except.error 404, s)) := by
  constructor
  · rintro ⟨p, hp, hpid⟩
    have hne : SAMPLE_PRODUCTS.find? (fun q => q.id == n) ≠ none := by
      intro hnone
      have hall := List.find?_eq_none.mp hnone p hp
      simp [hpid] at hall
    obtain ⟨q, hq⟩ := Option.ne_none_iff_exists'.mp hne
    obtain ⟨i, hi, hgi, hqi, hfirst⟩ := find?_some_first _ _ _ hq
    refine ⟨i, hi, ?_, ?_, ?_⟩
    · rw [hgi]; simpa using hqi
    · rw [hgi]
      simp [get_product, hdb, get_product_fallback, hn, hq]
    · intro j hj hji
      have := hfirst j hj hji
      simpa using this
  · intro hall
    have hnone : SAMPLE_PRODUCTS.find? (fun q => q.id == n) = none := by
      apply List.find?_eq_none.mpr
      intro q hq
      simp [hall q hq]
    simp [get_product, hdb, get_product_fallback, hn, hnone]

/-- C6 witness: path parameter `"3"` returns the third sample product (the
first and only entry with id 3), with the state untouched. -/
theorem C6_get_product_by_id_witness :
    ((∃ p ∈ SAMPLE_PRODUCTS, p.id = (3 : Int)) →
      ∃ i, ∃ h : i < SAMPLE_PRODUCTS.length,
        (SAMPLE_PRODUCTS.get ⟨i, h⟩).id = (3 : Int) ∧
        get_product none stateEmptyFix "3" =
          (Except.ok (SAMPLE_PRODUCTS.get ⟨i, h⟩), stateEmptyFix) ∧
        ∀ j, ∀ hj : j < SAMPLE_PRODUCTS.length, j < i →
          (SAMPLE_PRODUCTS.get ⟨j, hj⟩).id ≠ (3 : Int)) ∧
    ((∀ p ∈ SAMPLE_PRODUCTS, p.id ≠ (3 : Int)) →
      get_product none stateEmptyFix "3" = (Except.error 404, stateEmptyFix)) :=
  C6_get_product_by_id none stateEmptyFix rfl "3" 3 rfl

/-! ## C2 -/

/-- C2 (amended): in fallback mode, for login requests whose processed email
(lowercased, stripped) and whose password are both non-empty, `POST
/auth/login` returns a success response carrying a `JWT_SECRET`-signed
access token exactly when `FALLBACK_USERS` holds a user under the processed
email whose stored hash equals the digest of the request password, and
fails with HTTP 401 for every other such pair; a request whose processed
email or password is empty fails with HTTP 422 instead. -/
theorem C2_login_fallback (sha256_hex : String → String) (mongoLogin : Option User)
    (s : AppState) (hdb : s.db_connected = false) (req : LoginRequest) (now : Nat) :
    (pyStrip (pyLower req.email) ≠ "" → req.password ≠ "" →
      (∀ u, users_lookup s.fallback_users (pyStrip (pyLower req.email)) = some u →
        (hash_password sha256_hex req.password = u.password →
          login_user sha256_hex mongoLogin s req now =
            (Except.ok
              { message := "Login successful (fallback mode)",
                access_token := Token.signed
                  { user_id := u.mid, email := u.email, exp := now + 2592000 } JWT_SECRET,
                token_type := "bearer",
                user := { id := u.id, name := u.name, email := u.email } }, s)) ∧
        (hash_password sha256_hex req.password ≠ u.password →
          login_user sha256_hex mongoLogin s req now = (Except.error 401, s))) ∧
      (users_lookup s.fallback_users (pyStrip (pyLower req.email)) = none →
        login_user sha256_hex mongoLogin s req now = (Except.error 401, s))) ∧
    ((pyStrip (pyLower req.email) = "" ∨ req.password = "") →
      login_user sha256_hex mongoLogin s req now = (Except.error 422, s)) := by
  constructor
  · intro hne hnp
    have hcond : (pyStrip (pyLower req.email) == "" || req.password == "") = false := by
      simp [hne, hnp]
    refine ⟨fun u hu => ⟨fun hmatch => ?_, fun hmismatch => ?_⟩, fun hu => ?_⟩
    · have hb : (sha256_hex req.password == u.password) = true := by
        simp [hash_password] at hmatch
        simp [hmatch]
      simp [login_user, hdb, hcond, hu, verify_password, hash_password, hb,
        create_access_token]
    · have hb : (sha256_hex req.password == u.password) = false := by
        simp [hash_password] at hmismatch
        simp [hmismatch]
      simp [login_user, hdb, hcond, hu, verify_password, hash_password, hb]
    · simp [login_user, hdb, hcond, hu]
  · intro hempty
    have hcond : (pyStrip (pyLower req.email) == "" || req.password == "") = true := by
      rcases hempty with h | h <;> simp [h]
    simp [login_user, hcond]

/-- C2 counterexample to the claim as stated: the pair `("", "x")` is not a
stored-and-matching pair, yet login fails with HTTP 422, not 401. -/
theorem C2_login_fallback_counterexample :
    login_user shaFix none stateEmptyFix { email := "", password := "x" } 0 =
      (Except.error 422, stateEmptyFix) ∧ (422 : Nat) ≠ 401 :=
  ⟨rfl, by norm_num⟩

/-- C2 witness: the stored user logs in with the matching password (email
arrives uppercased and padded, exercising the lower/strip processing). -/
theorem C2_login_fallback_witness :
    login_user shaFix none stateFix { email := " A@b.com ", password := "secret1" } 5 =
      (Except.ok
        { message := "Login successful (fallback mode)",
          access_token := Token.signed
            { user_id := "user_1", email := "a@b.com", exp := 2592005 } JWT_SECRET,
          token_type := "bearer",
          user := { id := "user_1", name := "Alice", email := "a@b.com" } }, stateFix) := by
  have h := (((C2_login_fallback shaFix none stateFix rfl
      { email := " A@b.com ", password := "secret1" } 5).1
      (by decide) (by decide)).1 aliceFix rfl).1 rfl
  exact h

/-! ## C3 -/

theorem users_lookup_append_new (us : List (String × User)) (em : String) (u : User)
    (h : users_lookup us em = none) :
    users_lookup (us ++ [(em, u)]) em = some u := by
  have hfind : us.find? (fun kv => kv.1 == em) = none := by
    simpa [users_lookup] using h
  simp [users_lookup, List.find?_append, hfind, List.find?]

/-- C3: in fallback mode, a register request that passes field validation
but whose processed (lowercased, stripped) email is already a key of
`FALLBACK_USERS` fails with HTTP 400 and leaves the state unchanged: no
user is stored and no token is issued. -/
theorem C3_register_duplicate_400 (sha256_hex : String → String)
    (mongoReg : Option (Except Nat TokenResponse)) (s : AppState)
    (hdb : s.db_connected = false) (req : RegisterRequest) (now : Nat)
    (hname : 2 ≤ (pyStrip req.name).length)
    (hemail : req.email.toList.contains '@' = true)
    (hpw : 6 ≤ req.password.length)
    (u : User)
    (hdup : users_lookup s.fallback_users (pyStrip (pyLower req.email)) = some u) :
    register_user sha256_hex mongoReg s req now = (Except.error 400, s) := by
  have hn1 : req.name ≠ "" := by
    intro h0; rw [h0] at hname; exact absurd hname (by decide)
  have he1 : req.email ≠ "" := by
    intro h0; rw [h0] at hemail; exact absurd hemail (by decide)
  have hp1 : req.password ≠ "" := by
    intro h0; rw [h0] at hpw; exact absurd hpw (by decide)
  have hmem : '@' ∈ req.email.data := by simpa using hemail
  have hl1 : ¬ (pyStrip req.name).length < 2 := by omega
  have hl3 : ¬ req.password.length < 6 := by omega
  simp [register_user, hdb, hdup, hn1, he1, hp1, hmem, hl1, hl3]

/-- C3 witness: `aliceFix`'s email arrives in a fresh, differently-cased
registration and is rejected with 400, the state untouched. -/
theorem C3_register_duplicate_400_witness :
    register_user shaFix none stateFix
      { name := "Bob", email := "A@B.com", password := "secret2" } 7 =
      (Except.error 400, stateFix) :=
  C3_register_duplicate_400 shaFix none stateFix rfl
    { name := "Bob", email := "A@B.com", password := "secret2" } 7
    (by decide) (by decide) (by decide) aliceFix rfl

/-! ## C4 -/

/-- C4 counterexample to the claim as stated: a register request whose three
fields all pass validation, but whose email is already registered, is
rejected with HTTP 400 — no user is stored and no token is returned, even
though all three validation conditions pass in fallback mode. -/
theorem C4_register_valid_counterexample :
    2 ≤ (pyStrip "Jo").length ∧
    ("a@b.com" : String).toList.contains '@' = true ∧
    6 ≤ ("secret123" : String).length ∧
    register_user shaFix none stateFix
      { name := "Jo", email := "a@b.com", password := "secret123" } 0 =
      (Except.error 400, stateFix) :=
  ⟨by decide, by decide, by decide, rfl⟩

/-- C4 (amended): `POST /auth/register` fails with HTTP 422 and stores no
user whenever the stripped name has fewer than 2 characters, or the email
does not contain `@`, or the password has fewer than 6 characters; when all
three conditions pass in fallback mode and the processed email is not
already a key of `FALLBACK_USERS`, the user is stored with the digest of
the password as its stored password field (never the plaintext as such)
and a `JWT_SECRET`-signed token is returned. -/
theorem C4_register_validation (sha256_hex : String → String)
    (mongoReg : Option (Except Nat TokenResponse)) (s : AppState)
    (req : RegisterRequest) (now : Nat) :
    (((pyStrip req.name).length < 2 ∨ req.email.toList.contains '@' = false ∨
        req.password.length < 6) →
      register_user sha256_hex mongoReg s req now = (Except.error 422, s)) ∧
    (s.db_connected = false →
     2 ≤ (pyStrip req.name).length →
     req.email.toList.contains '@' = true →
     6 ≤ req.password.length →
     users_lookup s.fallback_users (pyStrip (pyLower req.email)) = none →
     ∃ u : User,
       register_user sha256_hex mongoReg s req now =
         (Except.ok
           { message := "User registered successfully (fallback mode)",
             access_token := create_access_token u now,
             token_type := "bearer",
             user := { id := u.id, name := u.name, email := u.email } },
          { s with fallback_users :=
              s.fallback_users ++ [(pyStrip (pyLower req.email), u)] }) ∧
       u.password = hash_password sha256_hex req.password ∧
       u.name = pyStrip req.name ∧
       u.email = pyStrip (pyLower req.email) ∧
       users_lookup (s.fallback_users ++ [(pyStrip (pyLower req.email), u)])
         (pyStrip (pyLower req.email)) = some u ∧
       create_access_token u now =
         Token.signed { user_id := u.mid, email := u.email, exp := now + 2592000 }
           JWT_SECRET) := by
  constructor
  · intro hbad
    by_cases ha : (pyStrip req.name).length < 2
    · have h1 : (req.name == "" || decide ((pyStrip req.name).length < 2)) = true := by
        simp [ha]
      simp [register_user, h1]
    · have hn1 : req.name ≠ "" := by
        intro h0; apply ha; rw [h0]; decide
      have h1 : (req.name == "" || decide ((pyStrip req.name).length < 2)) = false := by
        simp [hn1, ha]
      by_cases hb : req.email.toList.contains '@' = false
      · have h2 : (req.email == "" || !(req.email.toList.contains '@')) = true := by
          rw [hb]; simp
        simp only [register_user, h1, h2]
        simp
      · have hb' : req.email.toList.contains '@' = true := by
          cases hcc : req.email.toList.contains '@'
          · exact absurd hcc hb
          · rfl
        have he1 : req.email ≠ "" := by
          intro h0; rw [h0] at hb'; exact absurd hb' (by decide)
        have h2 : (req.email == "" || !(req.email.toList.contains '@')) = false := by
          simp [he1]
          simpa using hb'
        by_cases hc : req.password.length < 6
        · have h3 : (req.password == "" || decide (req.password.length < 6)) = true := by
            simp [hc]
          simp only [register_user, h1, h2, h3]
          simp
        · exfalso
          rcases hbad with h | h | h
          · exact ha h
          · rw [hb'] at h; exact absurd h (by decide)
          · exact hc h
  · intro hdb hname hemail hpw hnew
    have hn1 : req.name ≠ "" := by
      intro h0; rw [h0] at hname; exact absurd hname (by decide)
    have he1 : req.email ≠ "" := by
      intro h0; rw [h0] at hemail; exact absurd hemail (by decide)
    have hp1 : req.password ≠ "" := by
      intro h0; rw [h0] at hpw; exact absurd hpw (by decide)
    have hmem : '@' ∈ req.email.data := by simpa using hemail
    have hl1 : ¬ (pyStrip req.name).length < 2 := by omega
    have hl3 : ¬ req.password.length < 6 := by omega
    refine ⟨{ id := "user_" ++ toString (s.fallback_users.length + 1),
              mid := "user_" ++ toString (s.fallback_users.length + 1),
              name := pyStrip req.name,
              email := pyStrip (pyLower req.email),
              password := hash_password sha256_hex req.password,
              created_at := now }, ?_, rfl, rfl, rfl, ?_, rfl⟩
    · simp [register_user, hdb, hnew, hn1, he1, hp1, hmem, hl1, hl3]
    · exact users_lookup_append_new _ _ _ hnew

/-- C4 witness: a fresh valid registration in the empty fallback state is
stored hashed and answered with a signed token. -/
theorem C4_register_validation_witness :
    ((((pyStrip "Jo").length < 2 ∨ ("A@b.com" : String).toList.contains '@' = false ∨
        ("secret123" : String).length < 6) →
      register_user shaFix none stateEmptyFix
        { name := "Jo", email := "A@b.com", password := "secret123" } 0 =
        (Except.error 422, stateEmptyFix)) ∧
    (stateEmptyFix.db_connected = false →
     2 ≤ (pyStrip "Jo").length →
     ("A@b.com" : String).toList.contains '@' = true →
     6 ≤ ("secret123" : String).length →
     users_lookup stateEmptyFix.fallback_users (pyStrip (pyLower "A@b.com")) = none →
     ∃ u : User,
       register_user shaFix none stateEmptyFix
         { name := "Jo", email := "A@b.com", password := "secret123" } 0 =
         (Except.ok
           { message := "User registered successfully (fallback mode)",
             access_token := create_access_token u 0,
             token_type := "bearer",
             user := { id := u.id, name := u.name, email := u.email } },
          { stateEmptyFix with fallback_users :=
              stateEmptyFix.fallback_users ++ [(pyStrip (pyLower "A@b.com"), u)] }) ∧
       u.password = hash_password shaFix "secret123" ∧
       u.name = pyStrip "Jo" ∧
       u.email = pyStrip (pyLower "A@b.com") ∧
       users_lookup (stateEmptyFix.fallback_users ++ [(pyStrip (pyLower "A@b.com"), u)])
         (pyStrip (pyLower "A@b.com")) = some u ∧
       create_access_token u 0 =
         Token.signed { user_id := u.mid, email := u.email, exp := 0 + 2592000 }
           JWT_SECRET)) :=
  C4_register_validation shaFix none stateEmptyFix
    { name := "Jo", email := "A@b.com", password := "secret123" } 0

/-! ## C7 -/

/-- C7: `GET /auth/me` fails with HTTP 401 when the request carries no
bearer credentials, when the token is malformed or signed under a secret
other than the server's, when the token is expired, or when the token's
user is absent from fallback storage; and a token issued by
register/login (`create_access_token`) for a user whose email is still a
key of fallback storage yields that user's stored record (id, name,
email). -/
theorem C7_get_current_user_cases (mongoUser : Option UserResponse)
    (s : AppState) (hdb : s.db_connected = false) (now : Nat) :
    get_current_user mongoUser s none now = Except.error 401 ∧
    (∀ raw, get_current_user mongoUser s (some (Token.malformed raw)) now =
      Except.error 401) ∧
    (∀ p sec, sec ≠ JWT_SECRET →
      get_current_user mongoUser s (some (Token.signed p sec)) now =
        Except.error 401) ∧
    (∀ p : JwtPayload, p.exp < now →
      get_current_user mongoUser s (some (Token.signed p JWT_SECRET)) now =
        Except.error 401) ∧
    (∀ p : JwtPayload, ¬ p.exp < now →
      users_lookup s.fallback_users p.email = none →
      get_current_user mongoUser s (some (Token.signed p JWT_SECRET)) now =
        Except.error 401) ∧
    (∀ (u0 : User) (t0 : Nat) (u : User),
      users_lookup s.fallback_users u0.email = some u →
      ¬ t0 + 2592000 < now →
      get_current_user mongoUser s (some (create_access_token u0 t0)) now =
        Except.ok { id := u.id, name := u.name, email := u.email }) := by
  refine ⟨rfl, fun raw => rfl, ?_, ?_, ?_, ?_⟩
  · intro p sec hsec
    simp [get_current_user, verify_token, jwt_decode, hsec]
  · intro p hexp
    simp [get_current_user, verify_token, jwt_decode, hexp]
  · intro p hexp hu
    simp [get_current_user, verify_token, jwt_decode, hexp, hu, hdb]
  · intro u0 t0 u hu hexp
    simp [get_current_user, verify_token, jwt_decode, create_access_token,
      hexp, hu, hdb]

/-- C7 witness: a token issued for `aliceFix` at time 0, presented at time 5
against `stateFix`, yields her stored record. -/
theorem C7_get_current_user_cases_witness :
    get_current_user none stateFix (some (create_access_token aliceFix 0)) 5 =
      Except.ok { id := "user_1", name := "Alice", email := "a@b.com" } :=
  (C7_get_current_user_cases none stateFix rfl 5).2.2.2.2.2 aliceFix 0 aliceFix
    rfl (by norm_num)

end MegaCart
